import Mathlib

/-!
# Verification of the MTG Deck Builder client workflow

A shallow embedding of the `DeckBuilder` React component
(`frontend/src/components/DeckBuilder.js`): the workflow state record, the
event handlers (`handleFormatChange`, `handleFileUpload`,
`handleCommanderInput`, `handleBuildDeck`) modelled as pure functions from
the current state and the outcome of any network call to the next state
together with the list of HTTP requests issued, and the categorized deck
rendering `renderDeckList`.

Asynchronous handlers are modelled atomically: each handler runs to
completion, with the responses of the network calls it performs supplied as
explicit outcome parameters.
-/

namespace CardBuild

/-! ## Data model -/

/-- A card object as delivered by the server: `{name, type, cmc}`. -/
structure Card where
  name : String
  type : String
  cmc : Nat
deriving DecidableEq

/-- The `build-deck` response: `{commander, partner?, cards}`.  Both
`commander` and `partner` may be absent in a malformed/partial response,
hence `Option`. -/
structure BuiltDeck where
  commander : Option Card
  partner : Option Card
  cards : List Card
deriving DecidableEq

/-- The single `useState` record of the `DeckBuilder` component. -/
structure WState where
  step : Nat
  format : String
  cardList : String
  useCommander : Bool
  commanderName : String
  partnerCommander : String
  deckGoal : String
  loading : Bool
  error : Option String
  result : Option BuiltDeck
  hasPartnerAbility : Bool
deriving DecidableEq

/-- The initial state passed to `useState`. -/
def initialState : WState :=
  { step := 1
    format := ""
    cardList := ""
    useCommander := false
    commanderName := ""
    partnerCommander := ""
    deckGoal := ""
    loading := false
    error := none
    result := none
    hasPartnerAbility := false }

/-- An HTTP request issued by a handler, with its JSON payload. -/
inductive Request where
  | validateCommander (name : String) (isPartner : Bool)
  | checkPartner (commander1 commander2 : String)
  | buildDeck (format cardList commander partnerCommander deckGoal : String)
deriving DecidableEq

/-- JavaScript `x.error || defaultMsg`: an absent or empty (falsy) `error`
field falls back to the default message. -/
def jsOrDefault (o : Option String) (d : String) : String :=
  match o with
  | some e => if e = "" then d else e
  | none => d

/-! ## Handlers -/

/-- `handleFormatChange`: sets the format, moves to step 2, clears the two
commander name fields and recomputes `useCommander`.  All other fields
(including `hasPartnerAbility` and `result`) are carried over by the
spread. -/
def handleFormatChange (s : WState) (format : String) : WState :=
  { s with
    format := format
    step := 2
    commanderName := ""
    partnerCommander := ""
    useCommander := format == "commander" }

/-- Outcome of a `fetch` of `/validate-commander` as observed by the
handler: a 2xx response carrying `has_partner`, a non-2xx response whose
JSON body may carry an `error` field, or a thrown error (network failure)
with its message. -/
inductive ValidateOutcome where
  | ok (hasPartner : Bool)
  | httpError (errField : Option String)
  | thrown (msg : String)
deriving DecidableEq

/-- Outcome of the `/check-partner` call: a parsed JSON body
`{is_compatible, reason}` (the handler never checks `response.ok`), or a
thrown error with its message. -/
inductive PartnerCheck where
  | result (isCompatible : Bool) (reason : String)
  | thrown (msg : String)
deriving DecidableEq

/-- `handleCommanderInput`.  The first `setState` stores the typed name
optimistically, sets `loading` and clears `error`; an empty name
short-circuits; otherwise `/validate-commander` is called and, for a
partner entry whose validation succeeded, `/check-partner` follows.  Every
throw lands in the `catch`, which clears the field that was being edited
and surfaces a prefixed error message. -/
def handleCommanderInput (s : WState) (name : String) (isPartner : Bool)
    (vOut : ValidateOutcome) (pOut : PartnerCheck) : WState × List Request :=
  let s1 : WState :=
    { s with
      loading := true
      error := none
      commanderName := if isPartner then s.commanderName else name
      partnerCommander := if isPartner then name else s.partnerCommander }
  let caught : String → WState := fun msg =>
    { s1 with
      loading := false
      error := some ("Error validating commander: " ++ msg)
      commanderName := if isPartner then s1.commanderName else ""
      partnerCommander := if isPartner then "" else s1.partnerCommander }
  if name = "" then
    ({ s1 with loading := false, hasPartnerAbility := false }, [])
  else
    let vReq := Request.validateCommander name isPartner
    match vOut with
    | ValidateOutcome.httpError errField =>
        (caught (jsOrDefault errField "Invalid commander name"), [vReq])
    | ValidateOutcome.thrown msg => (caught msg, [vReq])
    | ValidateOutcome.ok hasPartner =>
        if isPartner then
          let pReq := Request.checkPartner s.commanderName name
          match pOut with
          | PartnerCheck.result true _ =>
              ({ s1 with loading := false, error := none }, [vReq, pReq])
          | PartnerCheck.result false reason => (caught reason, [vReq, pReq])
          | PartnerCheck.thrown msg => (caught msg, [vReq, pReq])
        else
          ({ s1 with
              hasPartnerAbility := hasPartner
              loading := false
              error := none }, [vReq])

/-- Outcome of the `/build-deck` call: a 2xx response carrying the built
deck, a non-2xx response whose body may carry an `error` field, or a thrown
error with its message. -/
inductive BuildOutcome where
  | ok (deck : BuiltDeck)
  | httpError (errField : Option String)
  | thrown (msg : String)
deriving DecidableEq

/-- `handleBuildDeck`: guarded on a non-empty `cardList` (no network call
and a fixed error message otherwise); then posts the build request and on
success stores the result and moves to step 4, while any failure only sets
`loading` and a prefixed `error`. -/
def handleBuildDeck (s : WState) (out : BuildOutcome) : WState × List Request :=
  if s.cardList = "" then
    ({ s with error := some "Please provide a card list" }, [])
  else
    let s1 : WState := { s with loading := true, error := none }
    let req := Request.buildDeck s.format s.cardList s.commanderName
      s.partnerCommander s.deckGoal
    match out with
    | BuildOutcome.ok deck =>
        ({ s1 with loading := false, result := some deck, step := 4 }, [req])
    | BuildOutcome.httpError errField =>
        ({ s1 with
            loading := false
            error := some ("Error building deck: " ++
              jsOrDefault errField "Error building deck") }, [req])
    | BuildOutcome.thrown msg =>
        ({ s1 with
            loading := false
            error := some ("Error building deck: " ++ msg) }, [req])

/-! ## The workflow transition system

Every user-triggered transition of the component, with the outcome of its
network calls (if any) baked into the event.  `handleFileUpload` either
reads the file's text successfully or fails; the two textareas replace
`cardList` resp. `deckGoal` verbatim. -/

inductive Event where
  | selectFormat (f : String)
  | fileUpload (text : Option String)
  | editCardList (text : String)
  | editDeckGoal (text : String)
  | commanderInput (name : String) (isPartner : Bool)
      (v : ValidateOutcome) (p : PartnerCheck)
  | build (out : BuildOutcome)
deriving DecidableEq

/-- One completed handler invocation. -/
def stepEvent (s : WState) : Event → WState
  | Event.selectFormat f => handleFormatChange s f
  | Event.fileUpload (some text) => { s with cardList := text, error := none }
  | Event.fileUpload none =>
      { s with error := some "Error reading file. Please try again." }
  | Event.editCardList text => { s with cardList := text }
  | Event.editDeckGoal text => { s with deckGoal := text }
  | Event.commanderInput name isPartner v p =>
      (handleCommanderInput s name isPartner v p).1
  | Event.build out => (handleBuildDeck s out).1

/-- Run a sequence of completed handler invocations. -/
def runEvents (s : WState) (es : List Event) : WState :=
  es.foldl stepEvent s

/-! ## Deck rendering: `renderDeckList` -/

/-- `charsStartWith a p`: the char list `a` begins with the chars of `p`. -/
def charsStartWith : List Char → List Char → Bool
  | _, [] => true
  | [], _ :: _ => false
  | a :: as, p :: ps => a == p && charsStartWith as ps

/-- Substring containment on char lists. -/
def charsContain : List Char → List Char → Bool
  | [], p => p.isEmpty
  | a :: as, p => charsStartWith (a :: as) p || charsContain as p

/-- JavaScript `s.includes(pat)`. -/
def jsIncludes (s pat : String) : Bool :=
  charsContain s.toList pat.toList

/-- JavaScript `s.toLowerCase()` on the card types: char-wise
lowercasing. -/
def jsToLower (s : String) : String :=
  String.mk (s.data.map Char.toLower)

/-- The `categorizedCards` object: nine buckets in fixed key order.  Bucket
elements are `Option Card` because the Commander bucket is built as the
one-element array `[state.result.commander]` even when `commander` is
absent. -/
structure Buckets where
  commander : List (Option Card)
  partner : List (Option Card)
  creatures : List (Option Card)
  instants : List (Option Card)
  sorceries : List (Option Card)
  artifacts : List (Option Card)
  enchantments : List (Option Card)
  planeswalkers : List (Option Card)
  lands : List (Option Card)
deriving DecidableEq

/-- The initial `categorizedCards` value: Commander is the one-element
array `[result.commander]` unconditionally; Partner is `[result.partner]`
if `partner` is truthy and `[]` otherwise; every type bucket starts
empty. -/
def initBuckets (d : BuiltDeck) : Buckets :=
  { commander := [d.commander]
    partner := match d.partner with
      | some p => [some p]
      | none => []
    creatures := []
    instants := []
    sorceries := []
    artifacts := []
    enchantments := []
    planeswalkers := []
    lands := [] }

/-- The body of the `forEach` over `result.cards`: lowercase the card's
`type` and push the card into the first bucket whose substring matches, in
the source's if/else-if order; a card matching nothing is dropped. -/
def classifyStep (b : Buckets) (card : Card) : Buckets :=
  let t := jsToLower card.type
  if jsIncludes t "creature" then
    { b with creatures := b.creatures ++ [some card] }
  else if jsIncludes t "instant" then
    { b with instants := b.instants ++ [some card] }
  else if jsIncludes t "sorcery" then
    { b with sorceries := b.sorceries ++ [some card] }
  else if jsIncludes t "artifact" then
    { b with artifacts := b.artifacts ++ [some card] }
  else if jsIncludes t "enchantment" then
    { b with enchantments := b.enchantments ++ [some card] }
  else if jsIncludes t "planeswalker" then
    { b with planeswalkers := b.planeswalkers ++ [some card] }
  else if jsIncludes t "land" then
    { b with lands := b.lands ++ [some card] }
  else b

/-- `Object.entries(categorizedCards)`: JavaScript preserves string-key
insertion order, so the entries come out in the fixed declaration order. -/
def bucketEntries (b : Buckets) : List (String × List (Option Card)) :=
  [("Commander", b.commander),
   ("Partner", b.partner),
   ("Creatures", b.creatures),
   ("Instants", b.instants),
   ("Sorceries", b.sorceries),
   ("Artifacts", b.artifacts),
   ("Enchantments", b.enchantments),
   ("Planeswalkers", b.planeswalkers),
   ("Lands", b.lands)]

/-- The categorized section data of `renderDeckList` on a non-null
`result`: build the buckets, run the `forEach` over `cards`, and keep one
section per bucket with `cards.length > 0` (the JSX
`cards.length > 0 && ...` guard), in entry order. -/
def deckSections (d : BuiltDeck) : List (String × List (Option Card)) :=
  (bucketEntries (d.cards.foldl classifyStep (initBuckets d))).filter
    (fun sec => decide (0 < sec.2.length))

/-- `renderDeckList` on a non-null `result`.  Emitting a displayed section
evaluates `card.name` for every entry of its bucket (the `<li>` children
are built eagerly inside `cards.map`), so an absent card — JS `undefined`,
possible only via the Commander bucket `[state.result.commander]` — throws
a TypeError and the call produces no output at all; this is modelled as
`none`.  Otherwise the full section list is returned. -/
def renderDeckList (d : BuiltDeck) :
    Option (List (String × List (Option Card))) :=
  if (deckSections d).all (fun sec => sec.2.all Option.isSome) then
    some (deckSections d)
  else none

/-! ## Specification-side description of the rendering (for C1) -/

/-- The seven type-matched categories, in the spec's fixed order. -/
inductive Category where
  | creatures
  | instants
  | sorceries
  | artifacts
  | enchantments
  | planeswalkers
  | lands
deriving DecidableEq

/-- The earliest category whose substring matches the card's `type`
case-insensitively, per the spec's fixed check order; `none` when no listed
substring matches. -/
def firstMatch (card : Card) : Option Category :=
  let t := jsToLower card.type
  if jsIncludes t "creature" then some Category.creatures
  else if jsIncludes t "instant" then some Category.instants
  else if jsIncludes t "sorcery" then some Category.sorceries
  else if jsIncludes t "artifact" then some Category.artifacts
  else if jsIncludes t "enchantment" then some Category.enchantments
  else if jsIncludes t "planeswalker" then some Category.planeswalkers
  else if jsIncludes t "land" then some Category.lands
  else none

/-- The cards of `cs`, in input order, whose earliest matching category is
`cat`. -/
def specBucket (cs : List Card) (cat : Category) : List (Option Card) :=
  (cs.filter fun c => firstMatch c == some cat).map fun c => some c

/-- Spec-side section list: Commander from `d.commander`, Partner present
iff `d.partner` is, then each type category holding exactly the cards whose
earliest match it is, in input order, in the fixed category order. -/
def specSections (d : BuiltDeck) : List (String × List (Option Card)) :=
  [("Commander", [d.commander]),
   ("Partner", match d.partner with
     | some p => [some p]
     | none => []),
   ("Creatures", specBucket d.cards Category.creatures),
   ("Instants", specBucket d.cards Category.instants),
   ("Sorceries", specBucket d.cards Category.sorceries),
   ("Artifacts", specBucket d.cards Category.artifacts),
   ("Enchantments", specBucket d.cards Category.enchantments),
   ("Planeswalkers", specBucket d.cards Category.planeswalkers),
   ("Lands", specBucket d.cards Category.lands)]

/-- Spec-side rendering: the nonempty sections, in the fixed order. -/
def renderDeckListSpec (d : BuiltDeck) : List (String × List (Option Card)) :=
  (specSections d).filter (fun sec => decide (0 < sec.2.length))

/-! ## Auxiliary definitions used by the proofs -/

/-- Push a card into the bucket named by `oc`, at the end (JavaScript
`push`); no bucket is touched when `oc` is `none`. -/
def pushCat (b : Buckets) (oc : Option Category) (card : Card) : Buckets :=
  match oc with
  | some Category.creatures => { b with creatures := b.creatures ++ [some card] }
  | some Category.instants => { b with instants := b.instants ++ [some card] }
  | some Category.sorceries => { b with sorceries := b.sorceries ++ [some card] }
  | some Category.artifacts => { b with artifacts := b.artifacts ++ [some card] }
  | some Category.enchantments =>
      { b with enchantments := b.enchantments ++ [some card] }
  | some Category.planeswalkers =>
      { b with planeswalkers := b.planeswalkers ++ [some card] }
  | some Category.lands => { b with lands := b.lands ++ [some card] }
  | none => b

/-- The event is a format selection. -/
def isFormatChange : Event → Bool
  | Event.selectFormat _ => true
  | _ => false

/-- The event is a build submission whose network call succeeded. -/
def isBuildSuccess : Event → Bool
  | Event.build (BuildOutcome.ok _) => true
  | _ => false

/-- No format-selection event occurs after a successful build submission
anywhere in the sequence. -/
def noFormatChangeAfterBuild : List Event → Bool
  | [] => true
  | e :: es =>
      (if isBuildSuccess e then es.all fun x => !isFormatChange x else true)
        && noFormatChangeAfterBuild es

/-- The spec's §3 invariant: `result` is non-null only at `step == 4`. -/
def resultStepInv (s : WState) : Prop := s.result ≠ none → s.step = 4

/-! ## Concrete values for counterexamples and witnesses -/

/-- A concrete server-built deck. -/
def demoDeck : BuiltDeck :=
  { commander := some { name := "Atraxa", type := "Legendary Creature", cmc := 4 }
    partner := none
    cards := [{ name := "Lightning Bolt", type := "Instant", cmc := 1 }] }

/-- A state in commander format with a validated primary commander. -/
def c2pre : WState :=
  { initialState with
    format := "commander"
    step := 2
    useCommander := true
    commanderName := "Halana, Kessig Ranger"
    hasPartnerAbility := true }

/-- A run that builds a deck successfully and then switches format. -/
def c3badTrace : List Event :=
  [Event.selectFormat "commander",
   Event.editCardList "1x Sol Ring",
   Event.build (BuildOutcome.ok demoDeck),
   Event.selectFormat "standard"]

/-- A run that builds a deck successfully and stops there. -/
def c3goodTrace : List Event :=
  [Event.selectFormat "commander",
   Event.editCardList "1x Sol Ring",
   Event.build (BuildOutcome.ok demoDeck)]

/-- A state ready to submit a build request. -/
def c9pre : WState :=
  { initialState with
    format := "commander"
    step := 2
    useCommander := true
    cardList := "1x Sol Ring"
    commanderName := "Atraxa"
    deckGoal := "value" }

/-- A run that validates a partner-capable commander and then switches the
format to standard. -/
def c4trace : List Event :=
  [Event.selectFormat "commander",
   Event.commanderInput "Tymna the Weaver" false (ValidateOutcome.ok true)
     (PartnerCheck.result true ""),
   Event.selectFormat "standard"]

/-! ## Helper lemmas -/

theorem classifyStep_eq (b : Buckets) (c : Card) :
    classifyStep b c = pushCat b (firstMatch c) c := by
  unfold classifyStep firstMatch
  by_cases h1 : jsIncludes (jsToLower c.type) "creature"
  · simp [h1, pushCat]
  by_cases h2 : jsIncludes (jsToLower c.type) "instant"
  · simp [h1, h2, pushCat]
  by_cases h3 : jsIncludes (jsToLower c.type) "sorcery"
  · simp [h1, h2, h3, pushCat]
  by_cases h4 : jsIncludes (jsToLower c.type) "artifact"
  · simp [h1, h2, h3, h4, pushCat]
  by_cases h5 : jsIncludes (jsToLower c.type) "enchantment"
  · simp [h1, h2, h3, h4, h5, pushCat]
  by_cases h6 : jsIncludes (jsToLower c.type) "planeswalker"
  · simp [h1, h2, h3, h4, h5, h6, pushCat]
  by_cases h7 : jsIncludes (jsToLower c.type) "land"
  · simp [h1, h2, h3, h4, h5, h6, h7, pushCat]
  simp [h1, h2, h3, h4, h5, h6, h7, pushCat]

theorem foldl_classify_commander (l : List Card) (b : Buckets) :
    (l.foldl classifyStep b).commander = b.commander := by
  induction l generalizing b with
  | nil => rfl
  | cons c l ih =>
    rw [List.foldl_cons, ih, classifyStep_eq]
    cases h : firstMatch c with
    | none => rfl
    | some cat => cases cat <;> rfl

theorem foldl_classify_partner (l : List Card) (b : Buckets) :
    (l.foldl classifyStep b).partner = b.partner := by
  induction l generalizing b with
  | nil => rfl
  | cons c l ih =>
    rw [List.foldl_cons, ih, classifyStep_eq]
    cases h : firstMatch c with
    | none => rfl
    | some cat => cases cat <;> rfl

theorem foldl_classify_creatures (l : List Card) (b : Buckets) :
    (l.foldl classifyStep b).creatures
      = b.creatures ++ specBucket l Category.creatures := by
  induction l generalizing b with
  | nil => simp [specBucket]
  | cons c l ih =>
    rw [List.foldl_cons, ih, classifyStep_eq]
    cases h : firstMatch c with
    | none => simp [specBucket, pushCat, h, List.filter_cons]
    | some cat =>
      cases cat <;> simp [specBucket, pushCat, h, List.filter_cons]

theorem foldl_classify_instants (l : List Card) (b : Buckets) :
    (l.foldl classifyStep b).instants
      = b.instants ++ specBucket l Category.instants := by
  induction l generalizing b with
  | nil => simp [specBucket]
  | cons c l ih =>
    rw [List.foldl_cons, ih, classifyStep_eq]
    cases h : firstMatch c with
    | none => simp [specBucket, pushCat, h, List.filter_cons]
    | some cat =>
      cases cat <;> simp [specBucket, pushCat, h, List.filter_cons]

theorem foldl_classify_sorceries (l : List Card) (b : Buckets) :
    (l.foldl classifyStep b).sorceries
      = b.sorceries ++ specBucket l Category.sorceries := by
  induction l generalizing b with
  | nil => simp [specBucket]
  | cons c l ih =>
    rw [List.foldl_cons, ih, classifyStep_eq]
    cases h : firstMatch c with
    | none => simp [specBucket, pushCat, h, List.filter_cons]
    | some cat =>
      cases cat <;> simp [specBucket, pushCat, h, List.filter_cons]

theorem foldl_classify_artifacts (l : List Card) (b : Buckets) :
    (l.foldl classifyStep b).artifacts
      = b.artifacts ++ specBucket l Category.artifacts := by
  induction l generalizing b with
  | nil => simp [specBucket]
  | cons c l ih =>
    rw [List.foldl_cons, ih, classifyStep_eq]
    cases h : firstMatch c with
    | none => simp [specBucket, pushCat, h, List.filter_cons]
    | some cat =>
      cases cat <;> simp [specBucket, pushCat, h, List.filter_cons]

theorem foldl_classify_enchantments (l : List Card) (b : Buckets) :
    (l.foldl classifyStep b).enchantments
      = b.enchantments ++ specBucket l Category.enchantments := by
  induction l generalizing b with
  | nil => simp [specBucket]
  | cons c l ih =>
    rw [List.foldl_cons, ih, classifyStep_eq]
    cases h : firstMatch c with
    | none => simp [specBucket, pushCat, h, List.filter_cons]
    | some cat =>
      cases cat <;> simp [specBucket, pushCat, h, List.filter_cons]

theorem foldl_classify_planeswalkers (l : List Card) (b : Buckets) :
    (l.foldl classifyStep b).planeswalkers
      = b.planeswalkers ++ specBucket l Category.planeswalkers := by
  induction l generalizing b with
  | nil => simp [specBucket]
  | cons c l ih =>
    rw [List.foldl_cons, ih, classifyStep_eq]
    cases h : firstMatch c with
    | none => simp [specBucket, pushCat, h, List.filter_cons]
    | some cat =>
      cases cat <;> simp [specBucket, pushCat, h, List.filter_cons]

theorem foldl_classify_lands (l : List Card) (b : Buckets) :
    (l.foldl classifyStep b).lands
      = b.lands ++ specBucket l Category.lands := by
  induction l generalizing b with
  | nil => simp [specBucket]
  | cons c l ih =>
    rw [List.foldl_cons, ih, classifyStep_eq]
    cases h : firstMatch c with
    | none => simp [specBucket, pushCat, h, List.filter_cons]
    | some cat =>
      cases cat <;> simp [specBucket, pushCat, h, List.filter_cons]

theorem handleCommanderInput_step_result (s : WState) (n : String) (ip : Bool)
    (v : ValidateOutcome) (p : PartnerCheck) :
    (handleCommanderInput s n ip v p).1.step = s.step ∧
    (handleCommanderInput s n ip v p).1.result = s.result := by
  unfold handleCommanderInput
  repeat' split <;> try simp

theorem handleCommanderInput_loading (s : WState) (n : String) (ip : Bool)
    (v : ValidateOutcome) (p : PartnerCheck) :
    (handleCommanderInput s n ip v p).1.loading = false := by
  unfold handleCommanderInput
  repeat' split <;> try simp

theorem handleBuildDeck_loading (s : WState) (out : BuildOutcome)
    (h : s.loading = false) : (handleBuildDeck s out).1.loading = false := by
  unfold handleBuildDeck
  repeat' split <;> try simp [h]

theorem handleBuildDeck_result_step_of_fail (s : WState) (out : BuildOutcome)
    (h : ∀ d, out ≠ BuildOutcome.ok d) :
    (handleBuildDeck s out).1.result = s.result ∧
    (handleBuildDeck s out).1.step = s.step := by
  cases out with
  | ok d => exact absurd rfl (h d)
  | httpError errField =>
    unfold handleBuildDeck
    split <;> exact ⟨rfl, rfl⟩
  | thrown msg =>
    unfold handleBuildDeck
    split <;> exact ⟨rfl, rfl⟩

theorem stepEvent_result_of_not_build (s : WState) (e : Event)
    (hb : isBuildSuccess e = false) : (stepEvent s e).result = s.result := by
  cases e with
  | selectFormat f => rfl
  | fileUpload t => cases t <;> rfl
  | editCardList t => rfl
  | editDeckGoal t => rfl
  | commanderInput n ip v p =>
    exact (handleCommanderInput_step_result s n ip v p).2
  | build out =>
    cases out with
    | ok deck => simp [isBuildSuccess] at hb
    | httpError errField =>
      exact (handleBuildDeck_result_step_of_fail s _ (by intro d h; cases h)).1
    | thrown msg =>
      exact (handleBuildDeck_result_step_of_fail s _ (by intro d h; cases h)).1

theorem stepEvent_step_of_not_build (s : WState) (e : Event)
    (hb : isBuildSuccess e = false) (hf : isFormatChange e = false) :
    (stepEvent s e).step = s.step := by
  cases e with
  | selectFormat f => simp [isFormatChange] at hf
  | fileUpload t => cases t <;> rfl
  | editCardList t => rfl
  | editDeckGoal t => rfl
  | commanderInput n ip v p =>
    exact (handleCommanderInput_step_result s n ip v p).1
  | build out =>
    cases out with
    | ok deck => simp [isBuildSuccess] at hb
    | httpError errField =>
      exact (handleBuildDeck_result_step_of_fail s _ (by intro d h; cases h)).2
    | thrown msg =>
      exact (handleBuildDeck_result_step_of_fail s _ (by intro d h; cases h)).2

theorem stepEvent_preserves_inv (s : WState) (e : Event)
    (hf : isFormatChange e = false) (h : resultStepInv s) :
    resultStepInv (stepEvent s e) := by
  by_cases hb : isBuildSuccess e = true
  · cases e with
    | build out =>
      cases out with
      | ok deck =>
        show resultStepInv (handleBuildDeck s (BuildOutcome.ok deck)).1
        unfold handleBuildDeck
        by_cases hc : s.cardList = ""
        · rw [if_pos hc]
          intro hr
          exact h hr
        · rw [if_neg hc]
          intro _
          rfl
      | httpError errField => simp [isBuildSuccess] at hb
      | thrown msg => simp [isBuildSuccess] at hb
    | selectFormat f => simp [isBuildSuccess] at hb
    | fileUpload t => simp [isBuildSuccess] at hb
    | editCardList t => simp [isBuildSuccess] at hb
    | editDeckGoal t => simp [isBuildSuccess] at hb
    | commanderInput n ip v p => simp [isBuildSuccess] at hb
  · rw [Bool.not_eq_true] at hb
    intro hr
    rw [stepEvent_result_of_not_build s e hb] at hr
    rw [stepEvent_step_of_not_build s e hb hf]
    exact h hr

theorem runEvents_inv_of_no_format (es : List Event) (s : WState)
    (hf : (es.all fun e => !isFormatChange e) = true)
    (h : resultStepInv s) : resultStepInv (runEvents s es) := by
  induction es generalizing s with
  | nil => exact h
  | cons e es ih =>
    rw [List.all_cons, Bool.and_eq_true, Bool.not_eq_true'] at hf
    exact ih (stepEvent s e) hf.2 (stepEvent_preserves_inv s e hf.1 h)

theorem runEvents_inv_of_ok_seq (es : List Event) (s : WState)
    (hok : noFormatChangeAfterBuild es = true)
    (h : s.result = none) : resultStepInv (runEvents s es) := by
  induction es generalizing s with
  | nil => exact fun hr => absurd h hr
  | cons e es ih =>
    rw [noFormatChangeAfterBuild, Bool.and_eq_true] at hok
    by_cases hb : isBuildSuccess e = true
    · rcases hok with ⟨h1, h2⟩
      rw [if_pos hb] at h1
      cases e with
      | build out =>
        cases out with
        | ok deck =>
          by_cases hc : s.cardList = ""
          · refine ih (stepEvent s (Event.build (BuildOutcome.ok deck))) h2 ?_
            show (handleBuildDeck s (BuildOutcome.ok deck)).1.result = none
            unfold handleBuildDeck
            rw [if_pos hc]
            exact h
          · refine runEvents_inv_of_no_format es _ h1 ?_
            show resultStepInv (handleBuildDeck s (BuildOutcome.ok deck)).1
            unfold handleBuildDeck
            rw [if_neg hc]
            intro _
            rfl
        | httpError errField => simp [isBuildSuccess] at hb
        | thrown msg => simp [isBuildSuccess] at hb
      | selectFormat f => simp [isBuildSuccess] at hb
      | fileUpload t => simp [isBuildSuccess] at hb
      | editCardList t => simp [isBuildSuccess] at hb
      | editDeckGoal t => simp [isBuildSuccess] at hb
      | commanderInput n ip v p => simp [isBuildSuccess] at hb
    · rw [Bool.not_eq_true] at hb
      refine ih (stepEvent s e) hok.2 ?_
      rw [stepEvent_result_of_not_build s e hb]
      exact h

theorem stepEvent_loading (s : WState) (e : Event) (h : s.loading = false) :
    (stepEvent s e).loading = false := by
  cases e with
  | selectFormat f => exact h
  | fileUpload t => cases t <;> exact h
  | editCardList t => exact h
  | editDeckGoal t => exact h
  | commanderInput n ip v p => exact handleCommanderInput_loading s n ip v p
  | build out => exact handleBuildDeck_loading s out h

theorem runEvents_loading (es : List Event) (s : WState)
    (h : s.loading = false) : (runEvents s es).loading = false := by
  induction es generalizing s with
  | nil => exact h
  | cons e es ih => exact ih (stepEvent s e) (stepEvent_loading s e h)

/-! ## Claim theorems -/

/-- The categorized section data equals the spec-side description. -/
theorem deckSections_eq_spec (d : BuiltDeck) :
    deckSections d = renderDeckListSpec d := by
  unfold deckSections renderDeckListSpec bucketEntries specSections
  rw [foldl_classify_commander, foldl_classify_partner, foldl_classify_creatures,
    foldl_classify_instants, foldl_classify_sorceries, foldl_classify_artifacts,
    foldl_classify_enchantments, foldl_classify_planeswalkers, foldl_classify_lands]
  simp [initBuckets]

/-- Filtering preserves an all-elements property. -/
theorem all_filter_of_all {α : Type} (p q : α → Bool) (l : List α)
    (h : l.all q = true) : (l.filter p).all q = true := by
  induction l with
  | nil => rfl
  | cons a l ih =>
    rw [List.all_cons, Bool.and_eq_true] at h
    by_cases hp : p a = true <;>
      simp [List.filter_cons, hp, h.1, ih h.2]

/-- Every spec-side type bucket holds only present cards. -/
theorem specBucket_all_present (cs : List Card) (cat : Category) :
    (specBucket cs cat).all Option.isSome = true := by
  rw [specBucket, List.all_eq_true]
  intro x hx
  rcases List.mem_map.1 hx with ⟨c, _, rfl⟩
  rfl

/-- With a present commander, every displayed entry of every spec-side
section is a present card. -/
theorem specSections_entries_present (d : BuiltDeck) (c : Card)
    (hc : d.commander = some c) :
    ((specSections d).all fun sec => sec.2.all Option.isSome) = true := by
  cases hp : d.partner <;>
    simp [specSections, hc, hp, specBucket_all_present]

/-- With a present commander no `card.name` dereference throws, so
`renderDeckList` returns the section list. -/
theorem renderDeckList_some_of_commander (d : BuiltDeck) (c : Card)
    (hc : d.commander = some c) :
    renderDeckList d = some (deckSections d) := by
  have hall : ((deckSections d).all fun sec => sec.2.all Option.isSome)
      = true := by
    rw [deckSections_eq_spec]
    unfold renderDeckListSpec
    exact all_filter_of_all _ _ _ (specSections_entries_present d c hc)
  unfold renderDeckList
  rw [if_pos hall]

/-- C1, counterexample: with an absent `result.commander`, rendering the
always-displayed Commander section dereferences `card.name` on `undefined`
and throws, so no section list is produced at all — in particular the
creature card of this deck is displayed in no category, against the
claim's universally quantified placement. -/
theorem renderDeckList_throws_on_absent_commander_cex :
    renderDeckList
      { commander := none
        partner := none
        cards := [{ name := "Grizzly Bears", type := "Creature", cmc := 2 }] }
      = none := by
  decide

/-- C1, amended: for every `BuiltDeck` whose `commander` is present,
`renderDeckList` returns the section list described by the spec — fixed
ordered categories, case-insensitive substring match on `type` checked in
that exact order with each card landing in the earliest matching bucket,
non-matching cards in no category, empty categories omitted, input order
preserved; when `commander` is absent the rendering throws a TypeError
and produces no output. -/
theorem renderDeckList_pure_categorization (d : BuiltDeck) (c : Card)
    (hc : d.commander = some c) :
    renderDeckList d = some (renderDeckListSpec d) := by
  rw [renderDeckList_some_of_commander d c hc, deckSections_eq_spec]

/-- Witness for the amended C1 theorem at a concrete deck. -/
theorem renderDeckList_pure_categorization_witness :
    demoDeck.commander
      = some { name := "Atraxa", type := "Legendary Creature", cmc := 4 } ∧
    renderDeckList demoDeck = some (renderDeckListSpec demoDeck) :=
  ⟨rfl, renderDeckList_pure_categorization demoDeck
    { name := "Atraxa", type := "Legendary Creature", cmc := 4 } rfl⟩

/-- C2, counterexample: with a validated primary commander, a partner entry
whose validation succeeds but whose `check-partner` call reports
incompatibility clears `partnerCommander`, yet `error` is NOT the bare
server `reason` — it is the reason behind the prefix
"Error validating commander: ". -/
theorem partner_incompat_error_not_bare_reason_cex :
    (handleCommanderInput c2pre "Alena, Kessig Trapper" true
        (ValidateOutcome.ok true)
        (PartnerCheck.result false "These commanders are not compatible")
      ).1.partnerCommander = "" ∧
    (handleCommanderInput c2pre "Alena, Kessig Trapper" true
        (ValidateOutcome.ok true)
        (PartnerCheck.result false "These commanders are not compatible")
      ).1.error ≠ some "These commanders are not compatible" ∧
    (handleCommanderInput c2pre "Alena, Kessig Trapper" true
        (ValidateOutcome.ok true)
        (PartnerCheck.result false "These commanders are not compatible")
      ).1.error
      = some "Error validating commander: These commanders are not compatible" := by
  decide

/-- C2, amended: if the partner's validate-commander call succeeds but the
check-partner call reports incompatibility, the handler ends with
`partnerCommander = ""` and `error` equal to
"Error validating commander: " followed by the server-provided reason. -/
theorem partner_incompat_clears_partner (s : WState) (name reason : String)
    (hasPartner : Bool) (_hcn : s.commanderName ≠ "") (hname : name ≠ "") :
    (handleCommanderInput s name true (ValidateOutcome.ok hasPartner)
        (PartnerCheck.result false reason)).1.partnerCommander = "" ∧
    (handleCommanderInput s name true (ValidateOutcome.ok hasPartner)
        (PartnerCheck.result false reason)).1.error
      = some ("Error validating commander: " ++ reason) := by
  unfold handleCommanderInput
  rw [if_neg hname]
  exact ⟨rfl, rfl⟩

/-- Witness for the amended C2 theorem at a concrete input. -/
theorem partner_incompat_clears_partner_witness :
    c2pre.commanderName ≠ "" ∧ ("Alena, Kessig Trapper" : String) ≠ "" ∧
    ((handleCommanderInput c2pre "Alena, Kessig Trapper" true
        (ValidateOutcome.ok true)
        (PartnerCheck.result false "not partners")).1.partnerCommander = "" ∧
     (handleCommanderInput c2pre "Alena, Kessig Trapper" true
        (ValidateOutcome.ok true)
        (PartnerCheck.result false "not partners")).1.error
       = some ("Error validating commander: " ++ "not partners")) :=
  ⟨by decide, by decide,
    partner_incompat_clears_partner c2pre "Alena, Kessig Trapper"
      "not partners" true (by decide) (by decide)⟩

/-- C3, counterexample: selecting a format after a successful build keeps
the non-null `result` while resetting `step` to 2, so a state with
`result ≠ none` and `step ≠ 4` is reachable. -/
theorem result_nonnull_off_step4_cex :
    (runEvents initialState c3badTrace).result ≠ none ∧
    (runEvents initialState c3badTrace).step = 2 ∧
    (runEvents initialState c3badTrace).step ≠ 4 := by
  decide

/-- C3, amended: in every state reachable from the initial state by a
transition sequence in which no format selection occurs after a successful
deck build, `result` is non-null only when `step = 4`. -/
theorem result_requires_step4_of_no_format_after_build (es : List Event)
    (hok : noFormatChangeAfterBuild es = true)
    (hr : (runEvents initialState es).result ≠ none) :
    (runEvents initialState es).step = 4 :=
  runEvents_inv_of_ok_seq es initialState hok rfl hr

/-- Witness for the amended C3 theorem at a concrete trace. -/
theorem result_requires_step4_witness :
    noFormatChangeAfterBuild c3goodTrace = true ∧
    (runEvents initialState c3goodTrace).result ≠ none ∧
    (runEvents initialState c3goodTrace).step = 4 :=
  ⟨by decide, by decide,
    result_requires_step4_of_no_format_after_build c3goodTrace
      (by decide) (by decide)⟩

/-- C4, counterexample: after validating a partner-capable commander,
selecting the standard format leaves `hasPartnerAbility = true` — the
commander-derived flag is NOT reset by the format switch. -/
theorem format_change_keeps_partner_ability_cex :
    (runEvents initialState c4trace).hasPartnerAbility = true := by
  decide

/-- C4, amended: for every state and selected format `f`, the select-format
transition sets `format = f`, `step = 2`, clears `commanderName` and
`partnerCommander` and sets `useCommander = (f == "commander")`, but leaves
`hasPartnerAbility` unchanged (stale commander-derived data survives). -/
theorem format_change_fields (s : WState) (f : String) :
    (handleFormatChange s f).format = f ∧
    (handleFormatChange s f).step = 2 ∧
    (handleFormatChange s f).commanderName = "" ∧
    (handleFormatChange s f).partnerCommander = "" ∧
    (handleFormatChange s f).useCommander = (f == "commander") ∧
    (handleFormatChange s f).hasPartnerAbility = s.hasPartnerAbility :=
  ⟨rfl, rfl, rfl, rfl, rfl, rfl⟩

/-- C5: after every sequence of completed handler invocations (each async
handler run to a terminal outcome — success, short-circuit or failure)
`loading` is false; no completed path leaves it true. -/
theorem loading_false_after_all_transitions (es : List Event) :
    (runEvents initialState es).loading = false :=
  runEvents_loading es initialState rfl

/-- C6: for a non-empty primary commander name, a failed validate-commander
call (non-2xx, with detail the response's `error` field or the default
"Invalid commander name"; or a thrown error with its message) leaves
`commanderName = ""`, `loading = false` and `error` equal to
"Error validating commander: " followed by the failure detail. -/
theorem validate_failure_clears_commander (s : WState) (name : String)
    (errField : Option String) (msg : String) (p p' : PartnerCheck)
    (hname : name ≠ "") :
    ((handleCommanderInput s name false (ValidateOutcome.httpError errField)
        p).1.commanderName = "" ∧
     (handleCommanderInput s name false (ValidateOutcome.httpError errField)
        p).1.loading = false ∧
     (handleCommanderInput s name false (ValidateOutcome.httpError errField)
        p).1.error = some ("Error validating commander: "
          ++ jsOrDefault errField "Invalid commander name")) ∧
    ((handleCommanderInput s name false (ValidateOutcome.thrown msg)
        p').1.commanderName = "" ∧
     (handleCommanderInput s name false (ValidateOutcome.thrown msg)
        p').1.loading = false ∧
     (handleCommanderInput s name false (ValidateOutcome.thrown msg)
        p').1.error = some ("Error validating commander: " ++ msg)) := by
  refine ⟨⟨?_, ?_, ?_⟩, ⟨?_, ?_, ?_⟩⟩ <;>
    (unfold handleCommanderInput; rw [if_neg hname]) <;> rfl

/-- Witness for C6 at a concrete input. -/
theorem validate_failure_clears_commander_witness :
    ("Craterhoof" : String) ≠ "" ∧
    (((handleCommanderInput initialState "Craterhoof" false
        (ValidateOutcome.httpError (some "Not a legendary creature"))
        (PartnerCheck.thrown "")).1.commanderName = "" ∧
      (handleCommanderInput initialState "Craterhoof" false
        (ValidateOutcome.httpError (some "Not a legendary creature"))
        (PartnerCheck.thrown "")).1.loading = false ∧
      (handleCommanderInput initialState "Craterhoof" false
        (ValidateOutcome.httpError (some "Not a legendary creature"))
        (PartnerCheck.thrown "")).1.error
        = some ("Error validating commander: "
            ++ jsOrDefault (some "Not a legendary creature")
                 "Invalid commander name")) ∧
     ((handleCommanderInput initialState "Craterhoof" false
        (ValidateOutcome.thrown "Failed to fetch")
        (PartnerCheck.thrown "")).1.commanderName = "" ∧
      (handleCommanderInput initialState "Craterhoof" false
        (ValidateOutcome.thrown "Failed to fetch")
        (PartnerCheck.thrown "")).1.loading = false ∧
      (handleCommanderInput initialState "Craterhoof" false
        (ValidateOutcome.thrown "Failed to fetch")
        (PartnerCheck.thrown "")).1.error
        = some ("Error validating commander: " ++ "Failed to fetch"))) :=
  ⟨by decide,
    validate_failure_clears_commander initialState "Craterhoof"
      (some "Not a legendary creature") "Failed to fetch"
      (PartnerCheck.thrown "") (PartnerCheck.thrown "") (by decide)⟩

/-- C7: with an empty `cardList`, the build submission issues no network
request, sets `error` to exactly "Please provide a card list" and leaves
every other state field unchanged. -/
theorem build_with_empty_cardList (s : WState) (out : BuildOutcome)
    (h : s.cardList = "") :
    (handleBuildDeck s out).2 = [] ∧
    (handleBuildDeck s out).1
      = { s with error := some "Please provide a card list" } := by
  unfold handleBuildDeck
  rw [if_pos h]
  exact ⟨rfl, rfl⟩

/-- Witness for C7 at a concrete input. -/
theorem build_with_empty_cardList_witness :
    initialState.cardList = "" ∧
    ((handleBuildDeck initialState (BuildOutcome.thrown "network down")).2 = [] ∧
     (handleBuildDeck initialState (BuildOutcome.thrown "network down")).1
       = { initialState with error := some "Please provide a card list" }) :=
  ⟨rfl, build_with_empty_cardList initialState (BuildOutcome.thrown "network down") rfl⟩

/-- C8: entering an empty commander (or partner) name issues no request to
the validation endpoint and ends with `hasPartnerAbility = false` and
`loading = false`. -/
theorem empty_commander_name_short_circuit (s : WState) (isPartner : Bool)
    (v : ValidateOutcome) (p : PartnerCheck) :
    (handleCommanderInput s "" isPartner v p).2 = [] ∧
    (handleCommanderInput s "" isPartner v p).1.hasPartnerAbility = false ∧
    (handleCommanderInput s "" isPartner v p).1.loading = false := by
  unfold handleCommanderInput
  rw [if_pos rfl]
  exact ⟨rfl, rfl, rfl⟩

/-- C9: with a non-empty `cardList`, a failed build (non-2xx, detail from
the body's `error` field or the default "Error building deck"; or a thrown
error with its message) sets `error` to "Error building deck: " plus the
detail, `loading = false`, and leaves `result`, `format`, `cardList`,
`commanderName`, `partnerCommander`, `deckGoal` and `step` unchanged. -/
theorem build_failure_frame (s : WState) (errField : Option String)
    (msg : String) (h : s.cardList ≠ "") :
    ((handleBuildDeck s (BuildOutcome.httpError errField)).1.error
        = some ("Error building deck: "
            ++ jsOrDefault errField "Error building deck") ∧
     (handleBuildDeck s (BuildOutcome.httpError errField)).1.loading = false ∧
     (handleBuildDeck s (BuildOutcome.httpError errField)).1.result = s.result ∧
     (handleBuildDeck s (BuildOutcome.httpError errField)).1.format = s.format ∧
     (handleBuildDeck s (BuildOutcome.httpError errField)).1.cardList = s.cardList ∧
     (handleBuildDeck s (BuildOutcome.httpError errField)).1.commanderName
        = s.commanderName ∧
     (handleBuildDeck s (BuildOutcome.httpError errField)).1.partnerCommander
        = s.partnerCommander ∧
     (handleBuildDeck s (BuildOutcome.httpError errField)).1.deckGoal = s.deckGoal ∧
     (handleBuildDeck s (BuildOutcome.httpError errField)).1.step = s.step) ∧
    ((handleBuildDeck s (BuildOutcome.thrown msg)).1.error
        = some ("Error building deck: " ++ msg) ∧
     (handleBuildDeck s (BuildOutcome.thrown msg)).1.loading = false ∧
     (handleBuildDeck s (BuildOutcome.thrown msg)).1.result = s.result ∧
     (handleBuildDeck s (BuildOutcome.thrown msg)).1.format = s.format ∧
     (handleBuildDeck s (BuildOutcome.thrown msg)).1.cardList = s.cardList ∧
     (handleBuildDeck s (BuildOutcome.thrown msg)).1.commanderName
        = s.commanderName ∧
     (handleBuildDeck s (BuildOutcome.thrown msg)).1.partnerCommander
        = s.partnerCommander ∧
     (handleBuildDeck s (BuildOutcome.thrown msg)).1.deckGoal = s.deckGoal ∧
     (handleBuildDeck s (BuildOutcome.thrown msg)).1.step = s.step) := by
  refine ⟨⟨?_, ?_, ?_, ?_, ?_, ?_, ?_, ?_, ?_⟩, ⟨?_, ?_, ?_, ?_, ?_, ?_, ?_, ?_, ?_⟩⟩ <;>
    (unfold handleBuildDeck; rw [if_neg h])

/-- Witness for C9 at a concrete input. -/
theorem build_failure_frame_witness :
    c9pre.cardList ≠ "" ∧
    (handleBuildDeck c9pre (BuildOutcome.httpError (some "Deck too small"))).1.error
      = some ("Error building deck: "
          ++ jsOrDefault (some "Deck too small") "Error building deck") ∧
    (handleBuildDeck c9pre (BuildOutcome.httpError (some "Deck too small"))).1.result
      = c9pre.result ∧
    (handleBuildDeck c9pre (BuildOutcome.thrown "Failed to fetch")).1.error
      = some ("Error building deck: " ++ "Failed to fetch") ∧
    (handleBuildDeck c9pre (BuildOutcome.thrown "Failed to fetch")).1.step
      = c9pre.step :=
by
  have hc : c9pre.cardList ≠ "" := by decide
  have h := build_failure_frame c9pre (some "Deck too small") "Failed to fetch" hc
  exact ⟨hc, h.1.1, h.1.2.2.1, h.2.1, h.2.2.2.2.2.2.2.2.2⟩

/-- C10, counterexample: with `result.commander` absent, the Commander
bucket is still the one-element `[undefined]`, but rendering it throws
(`card.name` on `undefined`), so the output contains no Commander section
— and no Partner section either, although `result.partner` is present. -/
theorem renderDeckList_absent_commander_no_output_cex :
    renderDeckList
      { commander := none
        partner := some { name := "Alena, Kessig Trapper"
                          type := "Legendary Creature", cmc := 3 }
        cards := [] }
      = none := by
  decide

/-- C10, amended: whenever `result` is non-null and `result.commander` is
present, the rendered output contains a Commander section holding exactly
the one-element bucket `[result.commander]`, and a Partner section appears
iff `result.partner` is present; when `result.commander` is absent the
Commander bucket's rendering throws and no output is produced. -/
theorem renderDeckList_commander_always_partner_iff (d : BuiltDeck)
    (c : Card) (hc : d.commander = some c) :
    ∃ secs, renderDeckList d = some secs ∧
      (secs.filter fun sec => sec.1 == "Commander")
        = [("Commander", [d.commander])] ∧
      (secs.any fun sec => sec.1 == "Partner") = d.partner.isSome := by
  refine ⟨deckSections d, renderDeckList_some_of_commander d c hc, ?_, ?_⟩
  · unfold deckSections bucketEntries
    rw [List.filter_filter]
    rw [foldl_classify_commander, foldl_classify_partner]
    simp [initBuckets]
  · unfold deckSections bucketEntries
    rw [List.any_filter]
    rw [foldl_classify_partner]
    cases hp : d.partner <;> simp [initBuckets, hp]

/-- Witness for the amended C10 theorem at a concrete deck. -/
theorem renderDeckList_commander_sections_witness :
    demoDeck.commander
      = some { name := "Atraxa", type := "Legendary Creature", cmc := 4 } ∧
    (∃ secs, renderDeckList demoDeck = some secs ∧
      (secs.filter fun sec => sec.1 == "Commander")
        = [("Commander", [demoDeck.commander])] ∧
      (secs.any fun sec => sec.1 == "Partner") = demoDeck.partner.isSome) :=
  ⟨rfl, renderDeckList_commander_always_partner_iff demoDeck
    { name := "Atraxa", type := "Legendary Creature", cmc := 4 } rfl⟩

end CardBuild
